import Mathlib

/-!
Verification of `send_line_notification.py`, a script that reads a JSON
termination-event record from standard input, formats a human-readable
notification message, and pushes it to the LINE Messaging API.

The script is embedded shallowly:
* JSON values are the inductive `JVal` (floating-point numbers are not
  modelled; no behaviour under scrutiny involves them).
* Python string rendering of a value (`str`/f-string formatting) is `pyStr`;
  the quote-selection and character-escaping subtleties of Python `repr`
  inside nested containers are not modelled, only its overall shape.
* The process environment is an `Env` of two optional variables, mirroring
  `os.getenv`.
* The network is an oracle `net : HttpRequest → HttpOutcome`; the `requests`
  library call `response.raise_for_status()` raises exactly for status codes
  in 400–599, which is reflected in `send_line_message`.
* `main` returns a `RunResult` recording the exit code, the list of HTTP
  requests issued, and the lines printed to the two output streams.
-/

/-- A JSON value as produced by `json.loads` (floats omitted). -/
inductive JVal where
  | jnull : JVal
  | jbool : Bool → JVal
  | jint : Int → JVal
  | jstr : String → JVal
  | jarr : List JVal → JVal
  | jobj : List (String × JVal) → JVal

mutual

/-- Python `repr` of a JSON-like value (quote choice and escaping inside
strings are not modelled). -/
def pyRepr : JVal → String
  | .jnull => "None"
  | .jbool b => if b then "True" else "False"
  | .jint n => toString n
  | .jstr s => "\x27" ++ s ++ "\x27"
  | .jarr xs => "[" ++ pyReprArr xs ++ "]"
  | .jobj kvs => "\x7b" ++ pyReprObj kvs ++ "\x7d"

/-- Comma-separated `repr`s of the elements of a list. -/
def pyReprArr : List JVal → String
  | [] => ""
  | [v] => pyRepr v
  | v :: vs => pyRepr v ++ ", " ++ pyReprArr vs

/-- Comma-separated `key: repr(value)` entries of a dict. -/
def pyReprObj : List (String × JVal) → String
  | [] => ""
  | [(k, v)] => "\x27" ++ k ++ "\x27: " ++ pyRepr v
  | (k, v) :: kvs => "\x27" ++ k ++ "\x27: " ++ pyRepr v ++ ", " ++ pyReprObj kvs

end

/-- Python `str` of a JSON-like value, as used by f-string interpolation. -/
def pyStr : JVal → String
  | .jstr s => s
  | v => pyRepr v

/-- Python type name of a JSON-like value, as it appears in an
`AttributeError` message. -/
def pyTypeName : JVal → String
  | .jnull => "NoneType"
  | .jbool _ => "bool"
  | .jint _ => "int"
  | .jstr _ => "str"
  | .jarr _ => "list"
  | .jobj _ => "dict"

/-- `dict.get` lookup on the association list backing a parsed JSON object;
a duplicated key keeps the last occurrence, as `json.loads` does. -/
def dictGet (d : List (String × JVal)) (k : String) : Option JVal :=
  d.foldl (fun acc kv => if kv.1 = k then some kv.2 else acc) none

/-- Whether the top-level JSON value is an object-like mapping. -/
def JVal.isObj : JVal → Bool
  | .jobj _ => true
  | _ => false

/-- Python `x == "lit"` where `x` is an arbitrary parsed JSON value: true
exactly when `x` is that string. -/
def pyEqStr : JVal → String → Bool
  | .jstr s, t => s == t
  | _, _ => false

/-- The `base_message` built at lines 37–42 of the script: header line, then
the status / conversation-id / model / loop-count / user fields, each
substituted from the record with its `dict.get` default when missing. -/
def base_message (status : JVal) (data : List (String × JVal)) : String :=
  let conversation_id := (dictGet data "conversation_id").getD (.jstr "未知")
  let model := (dictGet data "model").getD (.jstr "未知")
  let loop_count := (dictGet data "loop_count").getD (.jint 0)
  let user_email := (dictGet data "user_email").getD (.jstr "未知")
  "🔔 Cursor Agent 終止通知\n\n" ++
  ("狀態：" ++ pyStr status ++ "\n") ++
  ("對話 ID：" ++ pyStr conversation_id ++ "\n") ++
  ("模型：" ++ pyStr model ++ "\n") ++
  ("循環次數：" ++ pyStr loop_count ++ "\n") ++
  ("使用者：" ++ pyStr user_email ++ "\n")

/-- `get_status_message`: the base message followed by a closing line chosen
by exact string comparison on the status. -/
def get_status_message (status : JVal) (data : List (String × JVal)) : String :=
  let base := base_message status data
  if pyEqStr status "completed" then base ++ "\n✅ Agent 已成功完成任務"
  else if pyEqStr status "error" then base ++ "\n❌ Agent 因錯誤而終止"
  else if pyEqStr status "cancelled" then base ++ "\n⚠️ Agent 已被取消"
  else if pyEqStr status "timeout" then base ++ "\n⏱️ Agent 因逾時而終止"
  else base ++ ("\nℹ️ Agent 終止狀態：" ++ pyStr status)

/-- The fixed LINE Messaging API endpoint. -/
def LINE_API_URL : String := "https://api.line.me/v2/bot/message/push"

/-- An outbound HTTP request as assembled by `requests.post(...)`. -/
structure HttpRequest where
  method : String
  url : String
  headers : List (String × String)
  jsonBody : JVal
  timeout : Nat

/-- What the network returns for a request: a response (final status code,
reason phrase, body text), or a raised `RequestException` such as a
connection error or timeout, carrying its message. -/
inductive HttpOutcome where
  | response : Nat → String → String → HttpOutcome
  | netError : String → HttpOutcome

/-- The request `send_line_message` builds: POST to the fixed endpoint with
the JSON content-type and bearer-token headers, the documented body shape,
and a 10-second timeout. -/
def buildLineRequest (message access_token user_id : String) : HttpRequest :=
  { method := "POST"
    url := LINE_API_URL
    headers := [("Content-Type", "application/json"),
                ("Authorization", "Bearer " ++ access_token)]
    jsonBody := .jobj [("to", .jstr user_id),
                       ("messages", .jarr [.jobj [("type", .jstr "text"),
                                                  ("text", .jstr message)]])]
    timeout := 10 }

/-- The error text of the `HTTPError` raised by `raise_for_status` for a
status code in 400–599. -/
def httpErrorText (code : Nat) (reason : String) : String :=
  toString code ++ (if code < 500 then " Client Error: " else " Server Error: ") ++
    reason ++ " for url: " ++ LINE_API_URL

/-- Result of `send_line_message`: its boolean return value, the HTTP
requests it issued, and the lines it printed to stderr. -/
structure SendResult where
  ok : Bool
  requests : List HttpRequest
  err : List String

/-- `send_line_message`: issue one POST; `raise_for_status` raises exactly
for final status codes 400–599, and the handler prints the error (and the
response body when the exception carries a response) and returns `False`. -/
def send_line_message (message access_token user_id : String)
    (net : HttpRequest → HttpOutcome) : SendResult :=
  let req := buildLineRequest message access_token user_id
  match net req with
  | .response code reason body =>
      if 400 ≤ code ∧ code < 600 then
        { ok := false
          requests := [req]
          err := ["發送 LINE 通知失敗: " ++ httpErrorText code reason,
                  "回應內容: " ++ body] }
      else
        { ok := true, requests := [req], err := [] }
  | .netError m =>
      { ok := false, requests := [req], err := ["發送 LINE 通知失敗: " ++ m] }

/-- What the script reads from standard input: bytes that fail UTF-8
decoding, text that fails JSON parsing (with the decoder's message), or a
parsed JSON value. -/
inductive StdinData where
  | badUtf8 : String → StdinData
  | badJson : String → StdinData
  | json : JVal → StdinData

/-- The process environment: the two variables the script reads via
`os.getenv` (each `none` when absent). -/
structure Env where
  line_channel_access_token : Option String
  line_user_id : Option String

/-- Python truthiness test `not x` for an optional string: true when the
variable is absent or the empty string. -/
def pyFalsy : Option String → Bool
  | none => true
  | some s => s.isEmpty

/-- Observable outcome of one run of the script: exit code, HTTP requests
issued, and the lines written to the error and standard output streams. -/
structure RunResult where
  exitCode : Nat
  requests : List HttpRequest
  stderr : List String
  stdout : List String

namespace script

/-- `main`: read stdin, parse JSON (exit 1 on failure), take `status` with
default `"unknown"` (an `AttributeError` on a non-dict value reaches the
top-level handler), check both environment variables (exit 1 when falsy),
format the message, send it, and exit 0 exactly on send success.  All
prints in the script pass `file=sys.stderr`. -/
def main (input : StdinData) (env : Env) (net : HttpRequest → HttpOutcome) : RunResult :=
  match input with
  | .badUtf8 m =>
      { exitCode := 1, requests := [],
        stderr := ["發生未預期的錯誤: " ++ m], stdout := [] }
  | .badJson m =>
      { exitCode := 1, requests := [],
        stderr := ["JSON 解析錯誤: " ++ m], stdout := [] }
  | .json (.jobj d) =>
      let status := (dictGet d "status").getD (.jstr "unknown")
      let access_token := env.line_channel_access_token
      let user_id := env.line_user_id
      if pyFalsy access_token then
        { exitCode := 1, requests := [],
          stderr := ["錯誤: LINE_CHANNEL_ACCESS_TOKEN 環境變數未設定"], stdout := [] }
      else if pyFalsy user_id then
        { exitCode := 1, requests := [],
          stderr := ["錯誤: LINE_USER_ID 環境變數未設定"], stdout := [] }
      else
        let message := get_status_message status d
        let res := send_line_message message (access_token.getD "") (user_id.getD "") net
        if res.ok then
          { exitCode := 0, requests := res.requests,
            stderr := res.err ++ ["LINE 通知已成功發送"], stdout := [] }
        else
          { exitCode := 1, requests := res.requests,
            stderr := res.err ++ ["LINE 通知發送失敗"], stdout := [] }
  | .json v =>
      { exitCode := 1, requests := [],
        stderr := ["發生未預期的錯誤: \x27" ++ pyTypeName v ++
                   "\x27 object has no attribute \x27get\x27"], stdout := [] }

end script

/-- The formatted message always consists of the base message followed by
some closing text. -/
lemma get_status_message_split (st : JVal) (d : List (String × JVal)) :
    ∃ c, get_status_message st d = base_message st d ++ c := by
  unfold get_status_message
  split_ifs <;> exact ⟨_, rfl⟩

/-- Claim C1: for every event record, `get_status_message` with status exactly
`"completed"`, `"error"`, `"cancelled"` or `"timeout"` appends the
corresponding fixed closing line, and for every other status string `s` it
appends a generic closing line that contains `s` verbatim (it ends in `s`). -/
theorem get_status_message_closing_line (s : String) (d : List (String × JVal)) :
    (s = "completed" →
      get_status_message (.jstr s) d = base_message (.jstr s) d ++ "\n✅ Agent 已成功完成任務") ∧
    (s = "error" →
      get_status_message (.jstr s) d = base_message (.jstr s) d ++ "\n❌ Agent 因錯誤而終止") ∧
    (s = "cancelled" →
      get_status_message (.jstr s) d = base_message (.jstr s) d ++ "\n⚠️ Agent 已被取消") ∧
    (s = "timeout" →
      get_status_message (.jstr s) d = base_message (.jstr s) d ++ "\n⏱️ Agent 因逾時而終止") ∧
    (s ≠ "completed" → s ≠ "error" → s ≠ "cancelled" → s ≠ "timeout" →
      get_status_message (.jstr s) d =
        base_message (.jstr s) d ++ ("\nℹ️ Agent 終止狀態：" ++ s)) := by
  refine ⟨?_, ?_, ?_, ?_, ?_⟩
  · rintro rfl; simp [get_status_message, pyEqStr]
  · rintro rfl; simp [get_status_message, pyEqStr]
  · rintro rfl; simp [get_status_message, pyEqStr]
  · rintro rfl; simp [get_status_message, pyEqStr]
  · intro h1 h2 h3 h4
    simp [get_status_message, pyEqStr, pyStr, h1, h2, h3, h4]

theorem get_status_message_closing_line_witness :
    get_status_message (.jstr "completed") [] =
      base_message (.jstr "completed") [] ++ "\n✅ Agent 已成功完成任務" ∧
    get_status_message (.jstr "running") [] =
      base_message (.jstr "running") [] ++ ("\nℹ️ Agent 終止狀態：" ++ "running") :=
  ⟨(get_status_message_closing_line "completed" []).1 rfl,
   (get_status_message_closing_line "running" []).2.2.2.2
     (by decide) (by decide) (by decide) (by decide)⟩

/-- Python renders the integer default `0` as the text `0`. -/
lemma pyRepr_jint_zero : pyRepr (.jint 0) = "0" := rfl

/-- Claim C2: each optional field among `conversation_id`, `model`,
`loop_count` and `user_email` that is absent from the event record is
rendered in the formatted message as its fixed placeholder text (`未知`,
resp. `0` for the loop count), which is never the empty string; the
formatter is total, so no error can be raised. -/
theorem missing_optional_fields_render_placeholder (st : JVal) (d : List (String × JVal)) :
    (dictGet d "conversation_id" = none →
      ∃ p q, get_status_message st d = p ++ ("對話 ID：" ++ "未知" ++ "\n") ++ q) ∧
    (dictGet d "model" = none →
      ∃ p q, get_status_message st d = p ++ ("模型：" ++ "未知" ++ "\n") ++ q) ∧
    (dictGet d "loop_count" = none →
      ∃ p q, get_status_message st d = p ++ ("循環次數：" ++ "0" ++ "\n") ++ q) ∧
    (dictGet d "user_email" = none →
      ∃ p q, get_status_message st d = p ++ ("使用者：" ++ "未知" ++ "\n") ++ q) ∧
    ("未知" ≠ "" ∧ "0" ≠ "") := by
  obtain ⟨c, hc⟩ := get_status_message_split st d
  refine ⟨?_, ?_, ?_, ?_, by decide, by decide⟩
  · intro h
    refine ⟨"🔔 Cursor Agent 終止通知\n\n" ++ ("狀態：" ++ pyStr st ++ "\n"),
      ("模型：" ++ pyStr ((dictGet d "model").getD (.jstr "未知")) ++ "\n") ++
       (("循環次數：" ++ pyStr ((dictGet d "loop_count").getD (.jint 0)) ++ "\n") ++
        (("使用者：" ++ pyStr ((dictGet d "user_email").getD (.jstr "未知")) ++ "\n") ++ c)), ?_⟩
    rw [hc]
    unfold base_message
    rw [h]
    simp only [Option.getD_none, pyStr, pyRepr_jint_zero, String.append_assoc]
  · intro h
    refine ⟨"🔔 Cursor Agent 終止通知\n\n" ++ ("狀態：" ++ pyStr st ++ "\n") ++
        ("對話 ID：" ++ pyStr ((dictGet d "conversation_id").getD (.jstr "未知")) ++ "\n"),
      ("循環次數：" ++ pyStr ((dictGet d "loop_count").getD (.jint 0)) ++ "\n") ++
       (("使用者：" ++ pyStr ((dictGet d "user_email").getD (.jstr "未知")) ++ "\n") ++ c), ?_⟩
    rw [hc]
    unfold base_message
    rw [h]
    simp only [Option.getD_none, pyStr, pyRepr_jint_zero, String.append_assoc]
  · intro h
    refine ⟨"🔔 Cursor Agent 終止通知\n\n" ++ ("狀態：" ++ pyStr st ++ "\n") ++
        ("對話 ID：" ++ pyStr ((dictGet d "conversation_id").getD (.jstr "未知")) ++ "\n") ++
        ("模型：" ++ pyStr ((dictGet d "model").getD (.jstr "未知")) ++ "\n"),
      ("使用者：" ++ pyStr ((dictGet d "user_email").getD (.jstr "未知")) ++ "\n") ++ c, ?_⟩
    rw [hc]
    unfold base_message
    rw [h]
    simp only [Option.getD_none, pyStr, pyRepr_jint_zero, String.append_assoc]
  · intro h
    refine ⟨"🔔 Cursor Agent 終止通知\n\n" ++ ("狀態：" ++ pyStr st ++ "\n") ++
        ("對話 ID：" ++ pyStr ((dictGet d "conversation_id").getD (.jstr "未知")) ++ "\n") ++
        ("模型：" ++ pyStr ((dictGet d "model").getD (.jstr "未知")) ++ "\n") ++
        ("循環次數：" ++ pyStr ((dictGet d "loop_count").getD (.jint 0)) ++ "\n"),
      c, ?_⟩
    rw [hc]
    unfold base_message
    rw [h]
    simp only [Option.getD_none, pyStr, pyRepr_jint_zero, String.append_assoc]

theorem missing_optional_fields_render_placeholder_witness :
    (∃ p q, get_status_message (.jstr "completed") [] = p ++ ("對話 ID：" ++ "未知" ++ "\n") ++ q) ∧
    (∃ p q, get_status_message (.jstr "completed") [] = p ++ ("模型：" ++ "未知" ++ "\n") ++ q) ∧
    (∃ p q, get_status_message (.jstr "completed") [] = p ++ ("循環次數：" ++ "0" ++ "\n") ++ q) ∧
    (∃ p q, get_status_message (.jstr "completed") [] = p ++ ("使用者：" ++ "未知" ++ "\n") ++ q) :=
  ⟨(missing_optional_fields_render_placeholder (.jstr "completed") []).1 rfl,
   (missing_optional_fields_render_placeholder (.jstr "completed") []).2.1 rfl,
   (missing_optional_fields_render_placeholder (.jstr "completed") []).2.2.1 rfl,
   (missing_optional_fields_render_placeholder (.jstr "completed") []).2.2.2.1 rfl⟩

/-- Claim C3: for every standard-input text that is not valid JSON, `main`
exits with code 1 and issues no network request. -/
theorem malformed_json_exits_1_no_network (m : String) (env : Env)
    (net : HttpRequest → HttpOutcome) :
    (script.main (.badJson m) env net).exitCode = 1 ∧
    (script.main (.badJson m) env net).requests = [] :=
  ⟨rfl, rfl⟩

/-- Claim C4: for every standard-input text that parses as valid JSON whose
top-level value is not an object-like mapping, the run terminates with exit
code 1 and issues no network request (the `AttributeError` raised by
`data.get` is caught by the top-level handler). -/
theorem non_object_json_exits_1_no_network (v : JVal) (env : Env)
    (net : HttpRequest → HttpOutcome) (h : v.isObj = false) :
    (script.main (.json v) env net).exitCode = 1 ∧
    (script.main (.json v) env net).requests = [] := by
  cases v <;> simp_all [script.main, JVal.isObj]

theorem non_object_json_exits_1_no_network_witness :
    (JVal.jarr []).isObj = false ∧
    (script.main (.json (.jarr [])) ⟨some "t", some "u"⟩
        (fun _ => .response 200 "OK" "")).exitCode = 1 ∧
    (script.main (.json (.jarr [])) ⟨some "t", some "u"⟩
        (fun _ => .response 200 "OK" "")).requests = [] :=
  ⟨rfl,
   non_object_json_exits_1_no_network (.jarr []) ⟨some "t", some "u"⟩
     (fun _ => .response 200 "OK" "") rfl⟩

/-- Helper shared by the environment-variable claims: whenever the
credential check fails (either variable is Python-falsy), the run exits 1
and never reaches the network. -/
lemma falsy_env_exits_1_no_network (input : StdinData) (env : Env)
    (net : HttpRequest → HttpOutcome)
    (h : pyFalsy env.line_channel_access_token = true ∨
         pyFalsy env.line_user_id = true) :
    (script.main input env net).exitCode = 1 ∧
    (script.main input env net).requests = [] := by
  cases input with
  | badUtf8 m => exact ⟨rfl, rfl⟩
  | badJson m => exact ⟨rfl, rfl⟩
  | json v =>
    cases v with
    | jobj d =>
      by_cases ht : pyFalsy env.line_channel_access_token = true
      · simp [script.main, ht]
      · have hu : pyFalsy env.line_user_id = true := h.resolve_left ht
        simp [script.main, ht, hu]
    | jnull => exact ⟨rfl, rfl⟩
    | jbool b => exact ⟨rfl, rfl⟩
    | jint n => exact ⟨rfl, rfl⟩
    | jstr s => exact ⟨rfl, rfl⟩
    | jarr xs => exact ⟨rfl, rfl⟩

/-- Claim C5: for every run in which `LINE_CHANNEL_ACCESS_TOKEN` or
`LINE_USER_ID` is absent from the environment, `main` exits with code 1 and
issues no network request. -/
theorem absent_env_var_exits_1_no_network (input : StdinData) (env : Env)
    (net : HttpRequest → HttpOutcome)
    (h : env.line_channel_access_token = none ∨ env.line_user_id = none) :
    (script.main input env net).exitCode = 1 ∧
    (script.main input env net).requests = [] := by
  apply falsy_env_exits_1_no_network
  rcases h with h | h <;> [left; right] <;> rw [h] <;> rfl

theorem absent_env_var_exits_1_no_network_witness :
    (Env.mk none (some "u")).line_channel_access_token = none ∧
    (script.main (.json (.jobj [])) ⟨none, some "u"⟩
        (fun _ => .response 200 "OK" "")).exitCode = 1 ∧
    (script.main (.json (.jobj [])) ⟨none, some "u"⟩
        (fun _ => .response 200 "OK" "")).requests = [] :=
  ⟨rfl,
   absent_env_var_exits_1_no_network (.json (.jobj [])) ⟨none, some "u"⟩
     (fun _ => .response 200 "OK" "") (Or.inl rfl)⟩

/-- Claim C10: for every run in which `LINE_CHANNEL_ACCESS_TOKEN` or
`LINE_USER_ID` is present in the environment but set to the empty string,
the credential is treated as missing: `main` exits with code 1 and issues
no network request. -/
theorem empty_env_var_exits_1_no_network (input : StdinData) (env : Env)
    (net : HttpRequest → HttpOutcome)
    (h : env.line_channel_access_token = some "" ∨ env.line_user_id = some "") :
    (script.main input env net).exitCode = 1 ∧
    (script.main input env net).requests = [] := by
  apply falsy_env_exits_1_no_network
  rcases h with h | h <;> [left; right] <;> rw [h] <;> rfl

theorem empty_env_var_exits_1_no_network_witness :
    (Env.mk (some "") (some "u")).line_channel_access_token = some "" ∧
    (script.main (.json (.jobj [])) ⟨some "", some "u"⟩
        (fun _ => .response 200 "OK" "")).exitCode = 1 ∧
    (script.main (.json (.jobj [])) ⟨some "", some "u"⟩
        (fun _ => .response 200 "OK" "")).requests = [] :=
  ⟨rfl,
   empty_env_var_exits_1_no_network (.json (.jobj [])) ⟨some "", some "u"⟩
     (fun _ => .response 200 "OK" "") (Or.inl rfl)⟩

/-- Claim C7: for every message, credential and recipient,
`send_line_message` issues exactly one POST to
`https://api.line.me/v2/bot/message/push` with the JSON content-type and
`Bearer` authorization headers, a 10-second timeout, and the documented
`to`/`messages` JSON body. -/
theorem send_request_shape (msg tok uid : String) (net : HttpRequest → HttpOutcome) :
    (send_line_message msg tok uid net).requests =
      [{ method := "POST"
         url := "https://api.line.me/v2/bot/message/push"
         headers := [("Content-Type", "application/json"),
                     ("Authorization", "Bearer " ++ tok)]
         jsonBody := .jobj [("to", .jstr uid),
                            ("messages", .jarr [.jobj [("type", .jstr "text"),
                                                       ("text", .jstr msg)]])]
         timeout := 10 }] := by
  rcases hn : net (buildLineRequest msg tok uid) with ⟨c, r, b⟩ | m
  · by_cases hcc : 400 ≤ c ∧ c < 600
    · simp only [send_line_message, hn, if_pos hcc]
      simp [buildLineRequest, LINE_API_URL]
    · simp only [send_line_message, hn, if_neg hcc]
      simp [buildLineRequest, LINE_API_URL]
  · simp only [send_line_message, hn]
    simp [buildLineRequest, LINE_API_URL]

/-- Claim C8: for every input, environment and network outcome, the run
writes nothing to standard output, and its diagnostic text (at least one
line on every path) goes to the error stream. -/
theorem diagnostics_on_stderr_only (input : StdinData) (env : Env)
    (net : HttpRequest → HttpOutcome) :
    (script.main input env net).stdout = [] ∧
    (script.main input env net).stderr ≠ [] := by
  cases input with
  | badUtf8 m => exact ⟨rfl, by simp [script.main]⟩
  | badJson m => exact ⟨rfl, by simp [script.main]⟩
  | json v =>
    cases v with
    | jobj d =>
      by_cases ht : pyFalsy env.line_channel_access_token = true
      · simp [script.main, ht]
      · by_cases hu : pyFalsy env.line_user_id = true
        · simp [script.main, ht, hu]
        · by_cases hs : (send_line_message
              (get_status_message ((dictGet d "status").getD (.jstr "unknown")) d)
              (env.line_channel_access_token.getD "") (env.line_user_id.getD "") net).ok = true
          · simp [script.main, ht, hu, hs]
          · simp [script.main, ht, hu, hs]
    | jnull => exact ⟨rfl, by simp [script.main]⟩
    | jbool b => exact ⟨rfl, by simp [script.main]⟩
    | jint n => exact ⟨rfl, by simp [script.main]⟩
    | jstr s => exact ⟨rfl, by simp [script.main]⟩
    | jarr xs => exact ⟨rfl, by simp [script.main]⟩

/-- Claim C6 counterexample: a final 304 response is not 2xx, yet
`raise_for_status` does not raise for it, so `send_line_message` returns
`True` and the process exits 0. -/
theorem non_2xx_success_at_304 :
    ¬ (200 ≤ 304 ∧ 304 < 300) ∧
    (send_line_message "m" "t" "u" (fun _ => .response 304 "Not Modified" "")).ok = true ∧
    (script.main (.json (.jobj [])) ⟨some "t", some "u"⟩
      (fun _ => .response 304 "Not Modified" "")).exitCode = 0 := by
  refine ⟨by decide, by decide, by decide⟩

/-- Claim C6 (amended): for every run that reaches the send step, exactly
one request is issued (no retry); a response with status code outside
400–599 — in particular every 2xx — makes `send_line_message` return true
and the process exit 0, while a 4xx/5xx response or a network exception
(including timeout) makes it return false and the process exit 1. -/
theorem send_outcome_maps_to_exit (msg t u : String) (d : List (String × JVal))
    (ht : t.isEmpty = false) (hu : u.isEmpty = false)
    (net : HttpRequest → HttpOutcome) (code : Nat) (reason body m : String) :
    (send_line_message msg t u net).requests = [buildLineRequest msg t u] ∧
    (net (buildLineRequest msg t u) = .response code reason body →
      ((400 ≤ code ∧ code < 600) → (send_line_message msg t u net).ok = false) ∧
      (¬ (400 ≤ code ∧ code < 600) → (send_line_message msg t u net).ok = true)) ∧
    (net (buildLineRequest msg t u) = .netError m →
      (send_line_message msg t u net).ok = false) ∧
    (script.main (.json (.jobj d)) ⟨some t, some u⟩ net).exitCode =
      (if (send_line_message
            (get_status_message ((dictGet d "status").getD (.jstr "unknown")) d)
            t u net).ok then 0 else 1) ∧
    (script.main (.json (.jobj d)) ⟨some t, some u⟩ net).requests =
      (send_line_message
        (get_status_message ((dictGet d "status").getD (.jstr "unknown")) d)
        t u net).requests := by
  refine ⟨?_, ?_, ?_, ?_, ?_⟩
  · rcases hn : net (buildLineRequest msg t u) with ⟨c, r, b⟩ | mm
    · by_cases hcc : 400 ≤ c ∧ c < 600
      · simp only [send_line_message, hn, if_pos hcc]
      · simp only [send_line_message, hn, if_neg hcc]
    · simp only [send_line_message, hn]
  · intro hn
    constructor
    · intro hcc
      simp only [send_line_message, hn, if_pos hcc]
    · intro hcc
      simp only [send_line_message, hn, if_neg hcc]
  · intro hn
    simp only [send_line_message, hn]
  · have hft : pyFalsy (some t) = false := by simp [pyFalsy, ht]
    have hfu : pyFalsy (some u) = false := by simp [pyFalsy, hu]
    simp only [script.main, hft, hfu, Bool.false_eq_true, if_false, Option.getD_some]
    split <;> rfl
  · have hft : pyFalsy (some t) = false := by simp [pyFalsy, ht]
    have hfu : pyFalsy (some u) = false := by simp [pyFalsy, hu]
    simp only [script.main, hft, hfu, Bool.false_eq_true, if_false, Option.getD_some]
    split <;> rfl

theorem send_outcome_maps_to_exit_witness :
    ("tok".isEmpty = false) ∧ ("uid".isEmpty = false) ∧
    ((fun _ => HttpOutcome.response 500 "Internal Server Error" "err") (buildLineRequest "m" "tok" "uid") =
        .response 500 "Internal Server Error" "err" →
      ((400 ≤ 500 ∧ 500 < 600) →
        (send_line_message "m" "tok" "uid"
          (fun _ => HttpOutcome.response 500 "Internal Server Error" "err")).ok = false) ∧
      (¬ (400 ≤ 500 ∧ 500 < 600) →
        (send_line_message "m" "tok" "uid"
          (fun _ => HttpOutcome.response 500 "Internal Server Error" "err")).ok = true)) ∧
    (script.main (.json (.jobj [])) ⟨some "tok", some "uid"⟩
        (fun _ => HttpOutcome.response 500 "Internal Server Error" "err")).exitCode =
      (if (send_line_message
            (get_status_message ((dictGet ([] : List (String × JVal)) "status").getD (.jstr "unknown")) [])
            "tok" "uid" (fun _ => HttpOutcome.response 500 "Internal Server Error" "err")).ok
       then 0 else 1) :=
  ⟨rfl, rfl,
   (send_outcome_maps_to_exit "m" "tok" "uid" [] rfl rfl
      (fun _ => HttpOutcome.response 500 "Internal Server Error" "err")
      500 "Internal Server Error" "err" "x").2.1,
   (send_outcome_maps_to_exit "m" "tok" "uid" [] rfl rfl
      (fun _ => HttpOutcome.response 500 "Internal Server Error" "err")
      500 "Internal Server Error" "err" "x").2.2.2.1⟩

/-- The event record of the worked example in the specification. -/
def exampleRecord : List (String × JVal) :=
  [("status", .jstr "completed"), ("conversation_id", .jstr "abc123"),
   ("model", .jstr "gpt"), ("loop_count", .jint 3), ("user_email", .jstr "a@b.com")]

/-- The message the script formats for the worked example. -/
def exampleMessage : String := get_status_message (.jstr "completed") exampleRecord

/-- Claim C9: on the worked example record from the specification with both
environment variables set, the formatted message contains the five expected
field substrings and ends with the `completed` closing line, and a 200
response makes the process exit with code 0. -/
theorem completed_example_message_and_exit :
    (∃ p q, exampleMessage = p ++ "狀態：completed" ++ q) ∧
    (∃ p q, exampleMessage = p ++ "對話 ID：abc123" ++ q) ∧
    (∃ p q, exampleMessage = p ++ "模型：gpt" ++ q) ∧
    (∃ p q, exampleMessage = p ++ "循環次數：3" ++ q) ∧
    (∃ p q, exampleMessage = p ++ "使用者：a@b.com" ++ q) ∧
    (∃ p, exampleMessage = p ++ "\n✅ Agent 已成功完成任務") ∧
    (script.main (.json (.jobj exampleRecord)) ⟨some "token", some "user"⟩
      (fun _ => .response 200 "OK" "")).exitCode = 0 := by
  refine ⟨⟨"🔔 Cursor Agent 終止通知\n\n",
           "\n對話 ID：abc123\n模型：gpt\n循環次數：3\n使用者：a@b.com\n\n✅ Agent 已成功完成任務", by decide⟩,
          ⟨"🔔 Cursor Agent 終止通知\n\n狀態：completed\n",
           "\n模型：gpt\n循環次數：3\n使用者：a@b.com\n\n✅ Agent 已成功完成任務", by decide⟩,
          ⟨"🔔 Cursor Agent 終止通知\n\n狀態：completed\n對話 ID：abc123\n",
           "\n循環次數：3\n使用者：a@b.com\n\n✅ Agent 已成功完成任務", by decide⟩,
          ⟨"🔔 Cursor Agent 終止通知\n\n狀態：completed\n對話 ID：abc123\n模型：gpt\n",
           "\n使用者：a@b.com\n\n✅ Agent 已成功完成任務", by decide⟩,
          ⟨"🔔 Cursor Agent 終止通知\n\n狀態：completed\n對話 ID：abc123\n模型：gpt\n循環次數：3\n",
           "\n\n✅ Agent 已成功完成任務", by decide⟩,
          ⟨"🔔 Cursor Agent 終止通知\n\n狀態：completed\n對話 ID：abc123\n模型：gpt\n循環次數：3\n使用者：a@b.com\n", by decide⟩,
          by decide⟩
